import Mathlib

/-!
Verification of the shopee-webhook-receiver pipeline.

This file gives a shallow embedding, in Lean 4, of the parts of the
`shopee_api` / `shopee_worker` / `shopee_webhook` Python packages that the
verified properties talk about, and proves (or refutes) those properties.

Modelling conventions used throughout:
* Python floats (timestamps, monetary amounts) are modelled as `ℚ`;
  `round(x, 2)` is modelled as `roundTo2` below.
* Python strings are modelled as `String`, except in the message-chunking
  code where they are modelled as `List Char` (the Python code manipulates
  them character by character there); a missing / `None` string field is
  modelled as `""` when the code only ever tests it for truthiness.
* A Redis list is a Lean `List` whose head is the `LPUSH` side, so `LPUSH`
  is `List.cons` and `RPOP` takes the last element.
* Dictionaries with a fixed field layout are modelled as structures; a field
  that is present only sometimes is an `Option`.
-/

namespace ShopeeVerification

/-- `round(x, 2)` from the Python source (`CURRENCY_DECIMAL_PLACES = 2`):
round to two decimal places.  (Python uses banker's rounding on binary
floats; over `ℚ` we use Mathlib's `round`, which only differs on exact
half-cent ties.  No property proved here depends on the tie direction.) -/
def roundTo2 (x : ℚ) : ℚ := (round (100 * x) : ℤ) / 100

/-! ## Circuit breaker — `shopee_api/integrations/circuit_breaker.py`

`RedisCircuitBreaker` with states `"closed"`, `"open"`, `"half_open"`.
The constructor `open` is a Lean keyword, so the `"open"` state is called
`opened` here. -/

inductive BreakerState where
  | closed
  | opened
  | halfOpen
deriving DecidableEq, Repr

/-- The mutable fields of `RedisCircuitBreaker` (`__init__`, lines 20-31). -/
structure Breaker where
  threshold : ℕ
  timeout : ℚ
  failure_count : ℕ
  state : BreakerState
  opened_at : Option ℚ
deriving DecidableEq, Repr

/-- `RedisCircuitBreaker.__init__(threshold, timeout)`. -/
def mkBreaker (threshold : ℕ) (timeout : ℚ) : Breaker :=
  { threshold := threshold, timeout := timeout, failure_count := 0
    state := .closed, opened_at := none }

/-- `record_success` (lines 37-50): reset the count, close the circuit. -/
def record_success (b : Breaker) : Breaker :=
  { b with failure_count := 0, state := .closed, opened_at := none }

/-- `record_failure` (lines 52-70): increment the count; the transition to
`open` happens only when the incremented count reaches the threshold AND the
current state is `closed` (the `self.state == "closed"` conjunct on line 64). -/
def record_failure (now : ℚ) (b : Breaker) : Breaker :=
  let fc := b.failure_count + 1
  if b.threshold ≤ fc ∧ b.state = .closed then
    { b with failure_count := fc, state := .opened, opened_at := some now }
  else
    { b with failure_count := fc }

/-- `should_attempt_redis` (lines 72-95).  Returns the gate decision and the
(possibly mutated) breaker: in state `open`, once `now - opened_at > timeout`
the breaker moves to `half_open` and the probe is allowed.  In the source
`opened_at` is always set while the state is `open`; `getD 0` stands for that
invariant. -/
def should_attempt_redis (now : ℚ) (b : Breaker) : Bool × Breaker :=
  match b.state with
  | .closed => (true, b)
  | .opened =>
    if b.timeout < now - b.opened_at.getD 0 then
      (true, { b with state := .halfOpen })
    else
      (false, b)
  | .halfOpen => (true, b)

/-- One external stimulus to the breaker: a successful Redis call, a failed
Redis call at time `now`, or a `should_attempt_redis` query at time `now`
(the only operation that consults the clock for the open-state timeout). -/
inductive BreakerOp where
  | success
  | failure (now : ℚ)
  | query (now : ℚ)

def applyBreakerOp (b : Breaker) : BreakerOp → Breaker
  | .success => record_success b
  | .failure t => record_failure t b
  | .query t => (should_attempt_redis t b).2

def applyBreakerOps (b : Breaker) (ops : List BreakerOp) : Breaker :=
  ops.foldl applyBreakerOp b

/-- The stimulus sequence on which the documented breaker DAG fails: five
failures at time 0 open the circuit (threshold 5), a query at time 61 moves
it to half-open (timeout 60), then one more failure. -/
def breakerTrace : List BreakerOp :=
  [.failure 0, .failure 0, .failure 0, .failure 0, .failure 0,
   .query 61, .failure 61]

/-! ## Worker consumer — `shopee_worker/queue/redis_consumer.py` -/

/-- The `metadata` dict of a queue envelope.  `moved_to_dlq_at` and
`worker_id` are present only after DLQ insertion. -/
structure EnvMetadata where
  enqueued_at : ℚ
  retry_count : ℕ
  max_retries : ℕ
  moved_to_dlq_at : Option ℚ
  worker_id : Option ℕ
deriving DecidableEq, Repr

/-- A queue message `{id, payload, metadata}`.  The payload type is abstract
(`P`); the worker treats it opaquely.  `id` is an `Option` because the dict
rebuilt by `_move_to_dead_letter` carries no `"id"` key. -/
structure Envelope (P : Type) where
  id : Option String
  payload : P
  metadata : EnvMetadata
deriving DecidableEq, Repr

/-- The Redis key surface used by producer, worker and DLQ administration:
lists `shopee:webhooks:main` and `shopee:webhooks:dead_letter` (head of the
Lean list = `LPUSH` side) and the `shopee:webhooks:stats` hash counters.
A dead-letter element is `Option (Envelope P)`: `some e` is an entry whose
JSON decodes to a well-formed envelope, `none` an entry on which the replay
endpoint's per-message `json.loads` / metadata update raises. -/
structure QueueState (P : Type) where
  main : List (Envelope P)
  dead_letter : List (Option (Envelope P))
  total_enqueued : ℕ
  total_processed : ℕ
  total_failed : ℕ
deriving DecidableEq, Repr

/-- The attempt indices of `for attempt in range(retry_count, max_retries + 1)`
(line 176). -/
def attemptRange (retry_count max_retries : ℕ) : List ℕ :=
  List.range' retry_count (max_retries + 1 - retry_count)

/-- The retry loop body of `_process_with_retry` (lines 176-205): run the
business logic on each attempt index until one succeeds.  `outcome a = true`
models `process_webhook` returning `True` on attempt `a`; `false` models both
a `False` return and a raised exception (the two differ only in logging).
Returns the attempts actually executed and whether one succeeded. -/
def runAttempts (outcome : ℕ → Bool) : List ℕ → List ℕ × Bool
  | [] => ([], false)
  | a :: rest =>
    if outcome a then ([a], true)
    else
      let r := runAttempts outcome rest
      (a :: r.1, r.2)

/-- `_move_to_dead_letter` (lines 211-243): the pushed dict is rebuilt from
`payload` and `metadata` only — it has no `"id"` key — and the metadata is
extended with `moved_to_dlq_at` (the current time) and `worker_id`. -/
def dlqMessage (P : Type) (worker_id : ℕ) (now : ℚ) (e : Envelope P) : Envelope P :=
  { id := none
    payload := e.payload
    metadata := { e.metadata with moved_to_dlq_at := some now, worker_id := some worker_id } }

/-- `_process_with_retry` (lines 159-209): run the retry loop; if no attempt
succeeds, `LPUSH` the rebuilt message onto `shopee:webhooks:dead_letter` and
report failure. -/
def process_with_retry (P : Type) (outcome : ℕ → Bool) (worker_id : ℕ) (now : ℚ)
    (e : Envelope P) (st : QueueState P) : Bool × QueueState P :=
  let r := runAttempts outcome (attemptRange e.metadata.retry_count e.metadata.max_retries)
  if r.2 then (true, st)
  else (false, { st with dead_letter := some (dlqMessage P worker_id now e) :: st.dead_letter })

/-- `_process_message` (lines 103-157): process with retries, then bump the
`total_processed` / `total_failed` counter in the stats hash. -/
def process_message (P : Type) (outcome : ℕ → Bool) (worker_id : ℕ) (now : ℚ)
    (e : Envelope P) (st : QueueState P) : QueueState P :=
  let r := process_with_retry P outcome worker_id now e st
  if r.1 then { r.2 with total_processed := r.2.total_processed + 1 }
  else { r.2 with total_failed := r.2.total_failed + 1 }

/-- An empty queue state, used by the concrete counterexamples. -/
def emptyQueueState (P : Type) : QueueState P :=
  { main := [], dead_letter := [], total_enqueued := 0
    total_processed := 0, total_failed := 0 }

/-- A concrete dequeued envelope (its `id` is set, as the producer always
sets one). -/
def c1Envelope : Envelope String :=
  { id := some ("wh_1_A1")
    payload := "order-event"
    metadata := { enqueued_at := 0, retry_count := 0, max_retries := 3
                  moved_to_dlq_at := none, worker_id := none } }

/-! ## DLQ replay — `shopee_api/server/dashboard_routes.py`, `retry_dlq_messages`
(lines 574-663) -/

/-- The metadata reset applied to each replayed message (lines 630-634):
`retry_count = 0`, `enqueued_at = now`, and the two DLQ-only keys popped.
All other fields of the message (`id`, `payload`, `max_retries`) are
untouched. -/
def resetForRetry (P : Type) (now : ℚ) (e : Envelope P) : Envelope P :=
  { e with metadata := { e.metadata with
      retry_count := 0, enqueued_at := now,
      moved_to_dlq_at := none, worker_id := none } }

/-- The `while True` loop of `retry_dlq_messages` (lines 621-644), written
over the dead-letter entries in pop order (`RPOP` pops the right end, so the
loop sees `dead_letter.reverse`): a decodable entry is reset and `LPUSH`ed to
the main list and counted in `retried`; an entry whose decode raises is
dropped and counted in `failed`. -/
def retryDlqLoop (P : Type) (now : ℚ) :
    List (Option (Envelope P)) → List (Envelope P) → ℕ → ℕ →
    List (Envelope P) × ℕ × ℕ
  | [], main, retried, failed => (main, retried, failed)
  | some e :: rest, main, retried, failed =>
    retryDlqLoop P now rest (resetForRetry P now e :: main) (retried + 1) failed
  | none :: rest, main, retried, failed =>
    retryDlqLoop P now rest main retried (failed + 1)

/-- `retry_dlq_messages` (the `replay_all` operation): drain the DLQ into the
main queue and return the new state with the `retried` and `failed` counts.
(The early `dlq_length == 0` return and the non-empty path produce the same
state and counts, so they are not distinguished here.) -/
def retry_dlq_messages (P : Type) (now : ℚ) (st : QueueState P) :
    QueueState P × ℕ × ℕ :=
  let r := retryDlqLoop P now st.dead_letter.reverse st.main 0 0
  ({ st with main := r.1, dead_letter := [] }, r.2.1, r.2.2)

/-! ## Order assembly — `shopee_api/services/order_service.py` -/

/-- The fields of an escrow line item (`order_income.items[]` of the escrow
response) read by `_calculate_item_net_income`.  A missing or `None` sku is
modelled as `""` — the code only ever tests these fields for truthiness and
compares them to the order item's skus. -/
structure EscrowItem where
  model_sku : String
  item_sku : String
  selling_price : ℚ
deriving DecidableEq, Repr

/-- `response.order_income` of the escrow payload: the anchor `escrow_amount`
and the per-line settlement items. -/
structure EscrowData where
  escrow_amount : ℚ
  items : List EscrowItem
deriving DecidableEq, Repr

/-- The fields of an order-detail line item (`OrderItemSchema`) read by
`_parse_order_items` / `_calculate_item_net_income`. -/
structure OrderItemIn where
  model_sku : String
  item_sku : String
  item_name : String
  model_name : String
  model_quantity_purchased : ℕ
deriving DecidableEq, Repr

/-- The order-detail fields used by `_parse_order_items`. `create_time` is
kept as the raw unix timestamp (its ISO-8601 rendering is not modelled). -/
structure OrderDetail where
  order_sn : String
  buyer_username : String
  order_status : String
  create_time : ℤ
  item_list : List OrderItemIn
deriving DecidableEq, Repr

/-- The matching test of `_calculate_item_net_income` (lines 207-211):
`(escrow_item.get("model_sku") and escrow_item.get("model_sku") == item.model_sku)
 or (escrow_item.get("item_sku") and escrow_item.get("item_sku") == item.item_sku)`.
Note the truthiness guard: a row whose sku field is empty/missing never
matches through that field. -/
def escrowRowMatches (ei : EscrowItem) (it : OrderItemIn) : Bool :=
  (ei.model_sku != "" && ei.model_sku == it.model_sku) ||
  (ei.item_sku != "" && ei.item_sku == it.item_sku)

/-- `total_merch_value` (line 199): sum of `selling_price` over the escrow
items. -/
def totalMerchValue (e : EscrowData) : ℚ :=
  (e.items.map EscrowItem.selling_price).sum

/-- `_calculate_item_net_income` (lines 155-233), with its early returns in
source order: no escrow data, zero escrow amount, no escrow items, zero
merchandise total, or no matching row each yield `0.0`; otherwise the
pro-rata share of the first matching row, rounded to 2 decimals. -/
def calculate_item_net_income (it : OrderItemIn) (escrow : Option EscrowData) : ℚ :=
  match escrow with
  | none => 0
  | some e =>
    if e.escrow_amount = 0 then 0
    else if e.items.isEmpty then 0
    else if totalMerchValue e = 0 then 0
    else
      match e.items.find? (fun ei => escrowRowMatches ei it) with
      | none => 0
      | some m => roundTo2 (e.escrow_amount * (m.selling_price / totalMerchValue e))

/-- The spec's own matching rule, quoted from §4.6 of the specification:
`match settlement row by (model_sku == item.model_sku) || (item_sku == item.item_sku)`
— plain equality, without the code's truthiness guard.  Used only to compare
the specified behaviour with the implemented one. -/
def specRowMatches (ei : EscrowItem) (it : OrderItemIn) : Bool :=
  (ei.model_sku == it.model_sku) || (ei.item_sku == it.item_sku)

/-- The per-item net income exactly as the claim words it: `0.0` when the
settlement is absent, `escrow_amount` is 0, the merchandise total is 0, or no
row matches by plain sku equality; otherwise the rounded pro-rata share of
the (first) matching row. -/
def netIncomeAsSpecified (it : OrderItemIn) (escrow : Option EscrowData) : ℚ :=
  match escrow with
  | none => 0
  | some e =>
    if e.escrow_amount = 0 then 0
    else if totalMerchValue e = 0 then 0
    else
      match e.items.find? (fun ei => specRowMatches ei it) with
      | none => 0
      | some m => roundTo2 (e.escrow_amount * (m.selling_price / totalMerchValue e))

/-- One row of the list produced by `_parse_order_items` (lines 339-352),
restricted to the fields with content (the `date_time` ISO string is kept as
the raw `create_time`). -/
structure ParsedItem where
  order_id : String
  date_time : ℤ
  buyer : String
  product_name : String
  item_type : String
  parent_sku : String
  sku : String
  quantity : ℕ
  total_sale : ℚ
  status : String
deriving DecidableEq, Repr

/-- The sku derivation of `_parse_order_items` (lines 317-328):
`(model_sku or item_sku or "").strip()`, falling back to
`"NO_SKU_<item_name>".strip()` when that is empty. -/
def deriveSku (it : OrderItemIn) : String :=
  let s := (if it.model_sku != "" then it.model_sku else it.item_sku).trim
  if s = "" then ("NO_SKU_" ++ it.item_name).trim else s

/-- `_parse_order_items` (lines 295-357): one output row per order item,
with `total_sale` the pro-rata net income. -/
def parse_order_items (o : OrderDetail) (escrow : Option EscrowData) : List ParsedItem :=
  o.item_list.map (fun it =>
    { order_id := o.order_sn
      date_time := o.create_time
      buyer := o.buyer_username
      product_name := it.item_name
      item_type := it.model_name
      parent_sku := it.item_sku
      sku := deriveSku it
      quantity := if it.model_quantity_purchased = 0 then 1 else it.model_quantity_purchased
      total_sale := calculate_item_net_income it escrow
      status := o.order_status })

/-- Sum of `total_sale` over the rows emitted for one order. -/
def sumTotalSale (o : OrderDetail) (escrow : Option EscrowData) : ℚ :=
  ((parse_order_items o escrow).map ParsedItem.total_sale).sum

/-! ## Signature verification — `shopee_webhook/core/signature.py`

`hmac.new(key, body, sha256).hexdigest()` is a call into the Python standard
library, external to this repository; it enters the embedding as an explicit
function argument `hmacHex : String → String → String` (key, body ↦ lowercase
hex digest).  Every statement proved about `verify_push_signature` below
holds for the actual HMAC-SHA256 instantiation. -/

/-- The `"shpk"` prefix stripping applied to each candidate key
(lines 48-59). -/
def stripShpk (key : String) : String :=
  if key.startsWith ("shpk") then key.drop 4 else key

/-- `verify_push_signature(request_body, signature_header)` (lines 18-89) with
the `DEBUG_WEBHOOK` bypass disabled.  `keys` is the configured candidate list
`[partner_key, webhook_partner_key]`; a falsy (empty) setting contributes no
candidate (lines 48 and 55-56). -/
def verify_push_signature (hmacHex : String → String → String)
    (keys : List String) (body sign : String) : Bool :=
  if sign = "" then false
  else if body = "" then false
  else
    (keys.filter (fun k => k != "")).any
      (fun k => hmacHex (stripShpk k) body == sign)

/-! ## Notifier message chunking — `shopee_api/integrations/telegram.py`

Python strings are modelled here as `List Char` so that the character-level
splitting is fully executable.  `MAX_MESSAGE_LENGTH = 4000` (line 22). -/

/-- A Python string, as its character sequence. -/
abbrev PyStr := List Char

/-- `message.split("\n")` (line 298): split on every newline, keeping empty
pieces, never dropping characters other than the separators. -/
def splitOnNewline : PyStr → List PyStr
  | [] => [[]]
  | c :: rest =>
    match splitOnNewline rest with
    | [] => [[]]
    | h :: t => if c = '\n' then [] :: h :: t else (c :: h) :: t

/-- Python's `str.strip()` (lines 306 and 310): drop leading and trailing
whitespace. -/
def pyStrip (s : PyStr) : PyStr :=
  ((s.dropWhile Char.isWhitespace).reverse.dropWhile Char.isWhitespace).reverse

/-- The chunk-building loop of `_split_long_message` (lines 297-310): greedily
pack whole lines (plus their newline) while the chunk stays within
`maxLen`; when a line does not fit, flush the current chunk (stripped, and
only if non-empty) and start a fresh chunk with that line. -/
def chunkLoop (maxLen : ℕ) : List PyStr → PyStr → List PyStr → List PyStr
  | [], current, chunks =>
    if current.isEmpty then chunks else chunks ++ [pyStrip current]
  | line :: rest, current, chunks =>
    if current.length + line.length + 1 ≤ maxLen then
      chunkLoop maxLen rest (current ++ line ++ ['\n']) chunks
    else
      chunkLoop maxLen rest (line ++ ['\n'])
        (if current.isEmpty then chunks else chunks ++ [pyStrip current])

/-- `_split_long_message(message, max_length)` (lines 281-312): a message that
already fits is returned as the single chunk `[message]`; otherwise the line
loop runs, with a final `[message[:max_length]]` fallback for an empty chunk
list (unreachable, but present in the source). -/
def split_long_message (message : PyStr) (maxLen : ℕ) : List PyStr :=
  if message.length ≤ maxLen then [message]
  else if (chunkLoop maxLen (splitOnNewline message) [] []).isEmpty then
    [message.take maxLen]
  else chunkLoop maxLen (splitOnNewline message) [] []

/-- The send loop of `_send_direct` (lines 336-377), with the chat transport
abstracted as `sendOk : PyStr → Bool` (whether the `sendMessage` POST for a
chunk returns status 200).  Every chunk is posted; the call reports success
only when the notifier is enabled and every chunk send succeeded. -/
def send_direct (enabled : Bool) (sendOk : PyStr → Bool) (message : PyStr) : Bool :=
  if enabled then (split_long_message message 4000).all sendOk else false

/-! ## Reconciliation — `shopee_worker/services/reconciliation_service.py` -/

/-- The `SyncResult` dataclass (lines 38-50). -/
structure SyncResult where
  sync_type : String
  started_at : ℚ
  completed_at : ℚ
  time_from : ℤ
  time_to : ℤ
  orders_fetched : ℕ
  orders_processed : ℕ
  orders_skipped : ℕ
  errors : List String
  success : Bool
deriving DecidableEq, Repr

/-- The Redis-backed reconciliation state: the `sync_in_progress` NX lock key
(`true` = present), the sync history list (decoded), and the two timestamp
keys. -/
structure RecoState where
  syncLock : Bool
  history : List SyncResult
  lastSync : Option ℚ
  lastFullSync : Option ℚ
deriving DecidableEq, Repr

/-- `IGNORE_STATUSES` from `shopee_api/config/constants.py`. -/
def IGNORE_STATUSES : List String := ["UNPAID"]

/-- One entry of the order list returned by `api_client.get_order_list`. -/
structure OrderSummary where
  order_sn : String
  order_status : String
deriving DecidableEq, Repr

/-- The external collaborators of `sync_orders_in_range`, abstracted as pure
outcomes: the order-list fetch (`.error` = the call raised), the per-order
detail fetch (`none` = `fetch_order_details` returned `None`; the returned
items otherwise), and the repository upsert result. -/
structure SyncEnv where
  fetchResult : Except String (List OrderSummary)
  detailItems : String → Option (List ParsedItem)
  upsertOk : List ParsedItem → Bool

/-- `_record_sync_result` (lines 145-160): truncate the stored errors to 5,
`LPUSH` the entry onto the history and `LTRIM` it to 10, and on success
update `last_sync_timestamp` (and `last_full_sync_timestamp` for a daily
sync). -/
def record_sync_result (r : SyncResult) (st : RecoState) : RecoState :=
  let entry := { r with errors := r.errors.take 5 }
  { st with
    history := (entry :: st.history).take 10
    lastSync := if r.success then some r.completed_at else st.lastSync
    lastFullSync :=
      if r.success ∧ r.sync_type = "daily" then some r.completed_at else st.lastFullSync }

/-- The body of the per-order `try` block (lines 237-280): look the order's
list-status up, skip ignored statuses, fetch details, skip missing
details/items, upsert and count, appending an error message on a failed
upsert.  The accumulator is `(orders_processed, orders_skipped, errors)`. -/
def processOneOrder (env : SyncEnv) (order_list : List OrderSummary) (sn : String)
    (acc : ℕ × ℕ × List String) : ℕ × ℕ × List String :=
  let status := ((order_list.find? (fun o => o.order_sn == sn)).map
    OrderSummary.order_status).getD ""
  if status ∈ IGNORE_STATUSES then (acc.1, acc.2.1 + 1, acc.2.2)
  else
    match env.detailItems sn with
    | none => acc
    | some items =>
      if items.isEmpty then acc
      else if env.upsertOk items then (acc.1 + 1, acc.2.1, acc.2.2)
      else (acc.1, acc.2.1, acc.2.2 ++ ["Failed to upsert order " ++ sn])

/-- `sync_orders_in_range` (lines 162-326).  `t0` is the `started_at`
reading of `time.time()`, `t1` the `completed_at` reading.  The lock-failure
branch (lines 188-201) returns its `SyncResult` *before* the `try` block, so
it performs no fetch, records nothing, and does not touch the lock.  All
other branches record their result and release the lock in `finally`.
(The batch loop of lines 233-235 only affects logging; the orders are
processed in list order either way.  A raised `get_order_list` is the
`.error` case of the outer `except`.) -/
def sync_orders_in_range (env : SyncEnv) (t0 t1 : ℚ) (time_from time_to : ℤ)
    (sync_type : String) (st : RecoState) : RecoState × SyncResult :=
  if st.syncLock then
    (st,
      { sync_type := sync_type, started_at := t0, completed_at := t1
        time_from := time_from, time_to := time_to
        orders_fetched := 0, orders_processed := 0, orders_skipped := 0
        errors := ["Sync already in progress"], success := false })
  else
    let st1 := { st with syncLock := true }
    match env.fetchResult with
    | .error e =>
      let r : SyncResult :=
        { sync_type := sync_type, started_at := t0, completed_at := t1
          time_from := time_from, time_to := time_to
          orders_fetched := 0, orders_processed := 0, orders_skipped := 0
          errors := ["Sync failed: " ++ e], success := false }
      ({ record_sync_result r st1 with syncLock := false }, r)
    | .ok order_list =>
      if order_list.isEmpty then
        let r : SyncResult :=
          { sync_type := sync_type, started_at := t0, completed_at := t1
            time_from := time_from, time_to := time_to
            orders_fetched := 0, orders_processed := 0, orders_skipped := 0
            errors := [], success := true }
        ({ record_sync_result r st1 with syncLock := false }, r)
      else
        let order_sns := (order_list.filter (fun o => o.order_sn != "")).map
          OrderSummary.order_sn
        let acc := order_sns.foldl (fun a sn => processOneOrder env order_list sn a)
          (0, 0, [])
        let r : SyncResult :=
          { sync_type := sync_type, started_at := t0, completed_at := t1
            time_from := time_from, time_to := time_to
            orders_fetched := order_list.length
            orders_processed := acc.1, orders_skipped := acc.2.1
            errors := acc.2.2
            success := acc.2.2.isEmpty || acc.1 > 0 }
        ({ record_sync_result r st1 with syncLock := false }, r)

/-! ## Token refresh under contention — `shopee_api/api/client.py` and
`shopee_webhook/core/token_manager.py`

`ensure_valid_token` (client.py lines 120-135) checks expiry and calls
`refresh_access_token` (lines 56-118), which `await`s the refresh POST
(line 92) and only then persists the new token via `save_tokens`.  There is
no lock or other single-flight device anywhere on this path.  The model below
runs two concurrent callers of `ensure_valid_token` on the cooperative event
loop: each task is atomic between suspension points, and the `await` of the
refresh POST is the suspension point that splits it into a *begin* step
(check expiry, issue the POST) and a *finish* step (receive the response,
persist the token). -/

/-- `is_token_expired(access_token_expires_at)` (token_manager.py lines
57-59): `time.time() >= expires_at - 300`. -/
def is_token_expired (now expires_at : ℚ) : Bool :=
  decide (expires_at - 300 ≤ now)

/-- Where one caller of `ensure_valid_token` stands: not yet run, suspended
on the in-flight refresh POST, or completed. -/
inductive RefreshPc where
  | idle
  | inFlight
  | finished
deriving DecidableEq, Repr

/-- The two concurrent callers and the persisted token expiry they share. -/
structure TokenWorld where
  expires_at : ℚ
  taskA : RefreshPc
  taskB : RefreshPc
deriving DecidableEq, Repr

inductive TaskId where
  | a
  | b
deriving DecidableEq, Repr

def taskPc (w : TokenWorld) : TaskId → RefreshPc
  | .a => w.taskA
  | .b => w.taskB

def setTaskPc (w : TokenWorld) (i : TaskId) (p : RefreshPc) : TokenWorld :=
  match i with
  | .a => { w with taskA := p }
  | .b => { w with taskB := p }

/-- Begin step of `ensure_valid_token` for task `i`: load the stored tokens,
and if `is_token_expired` holds enter `refresh_access_token` and issue the
refresh POST (the task is now suspended with its request in flight);
otherwise return immediately. -/
def beginEnsureValidToken (now : ℚ) (i : TaskId) (w : TokenWorld) : TokenWorld :=
  match taskPc w i with
  | .idle =>
    if is_token_expired now w.expires_at then setTaskPc w i .inFlight
    else setTaskPc w i .finished
  | _ => w

/-- Finish step for task `i`: the refresh response arrives and `save_tokens`
persists `expires_at = now + expire_in` (default 7200, client.py line 107). -/
def finishRefresh (now : ℚ) (i : TaskId) (w : TokenWorld) : TokenWorld :=
  match taskPc w i with
  | .inFlight => { setTaskPc w i .finished with expires_at := now + 7200 }
  | _ => w

/-- Both refresh requests simultaneously in flight. -/
def bothRefreshing (w : TokenWorld) : Bool :=
  w.taskA == .inFlight && w.taskB == .inFlight

/-- The shared world of scenario E5 of the spec: stored token already
expired (`expires_at = now − 10` with `now = 1000`), both callers yet to
run. -/
def c9World : TokenWorld :=
  { expires_at := 990, taskA := .idle, taskB := .idle }

/-! ## Concrete instances used by counterexamples and witnesses -/

/-- An envelope whose `retry_count` already exceeds `max_retries`. -/
def c10Envelope : Envelope String :=
  { id := some ("wh_2_B2")
    payload := "stale-event"
    metadata := { enqueued_at := 0, retry_count := 5, max_retries := 3
                  moved_to_dlq_at := none, worker_id := none } }

/-- An order item with an empty `model_sku` (the upstream API omits it for
single-variation items) and `item_sku = "A"`. -/
def c3Item : OrderItemIn :=
  { model_sku := "", item_sku := "A", item_name := "Widget", model_name := ""
    model_quantity_purchased := 1 }

/-- Settlement data whose first row also has an empty `model_sku`: the row
satisfies the spec's plain-equality match against `c3Item` but not the
code's truthiness-guarded match. -/
def c3Escrow : EscrowData :=
  { escrow_amount := 100
    items := [{ model_sku := "", item_sku := "B", selling_price := 60 },
              { model_sku := "Y", item_sku := "C", selling_price := 40 }] }

def c4ItemX : OrderItemIn :=
  { model_sku := "X", item_sku := "", item_name := "Widget X", model_name := ""
    model_quantity_purchased := 1 }

def c4ItemY : OrderItemIn :=
  { model_sku := "Y", item_sku := "", item_name := "Widget Y", model_name := ""
    model_quantity_purchased := 1 }

/-- Settlement: `escrow_amount = 100` distributed over two rows 60 / 40
(scenario E1 of the spec). -/
def c4Escrow : EscrowData :=
  { escrow_amount := 100
    items := [{ model_sku := "X", item_sku := "", selling_price := 60 },
              { model_sku := "Y", item_sku := "", selling_price := 40 }] }

/-- An order containing both items, so the matched rows cover the whole
settlement. -/
def c4Order : OrderDetail :=
  { order_sn := "A1", buyer_username := "buyer", order_status := "READY_TO_SHIP"
    create_time := 0, item_list := [c4ItemX, c4ItemY] }

/-- An order containing only the 60-share item: exactly one item matches,
but the matched rows do not cover the settlement. -/
def c4OrderSingle : OrderDetail :=
  { order_sn := "A2", buyer_username := "buyer", order_status := "READY_TO_SHIP"
    create_time := 0, item_list := [c4ItemX] }

/-- Reconciliation state in which another sync already holds the lock and
the history is empty. -/
def c6St : RecoState :=
  { syncLock := true, history := [], lastSync := none, lastFullSync := none }

def c6Env : SyncEnv :=
  { fetchResult := Except.ok []
    detailItems := fun _ => none
    upsertOk := fun _ => false }

/-- A second, everywhere-different environment, used to show the lock-failure
branch never consults the collaborators. -/
def c6EnvB : SyncEnv :=
  { fetchResult := Except.error "api down"
    detailItems := fun _ => some []
    upsertOk := fun _ => true }

/-- A rendered message of 4001 identical non-whitespace characters: longer
than `MAX_MESSAGE_LENGTH` but containing no newline to split at. -/
def c8Message : PyStr := List.replicate 4001 'a'

/-- A short two-character message. -/
def c8Small : PyStr := ['h', 'i']

/-! # Theorems -/

/-! ## Supporting lemmas -/

/-- The gate contract that *does* hold: `should_attempt_redis` answers `false`
exactly when the breaker is open and the timeout has not yet elapsed. -/
theorem should_attempt_redis_false_iff (now : ℚ) (b : Breaker) :
    (should_attempt_redis now b).1 = false ↔
      b.state = .opened ∧ now - b.opened_at.getD 0 ≤ b.timeout := by
  rcases b with ⟨th, tmo, fc, s, oa⟩
  cases s with
  | closed => simp [should_attempt_redis]
  | halfOpen => simp [should_attempt_redis]
  | opened =>
    by_cases hlt : tmo < now - oa.getD 0
    · simp [should_attempt_redis, hlt, not_le.mpr hlt]
    · simp [should_attempt_redis, hlt, not_lt.mp hlt]

/-- `verify_push_signature` characterised: with the debug bypass disabled it
accepts exactly when the body and header are non-empty and the header equals
the digest of the body under some configured (non-empty) key, stripped of a
`"shpk"` prefix. -/
theorem verify_push_signature_iff (hmacHex : String → String → String)
    (keys : List String) (body sign : String) :
    verify_push_signature hmacHex keys body sign = true ↔
      sign ≠ "" ∧ body ≠ "" ∧ ∃ k ∈ keys, k ≠ "" ∧ hmacHex (stripShpk k) body = sign := by
  unfold verify_push_signature
  by_cases hs : sign = ""
  · simp [hs]
  · by_cases hb : body = ""
    · simp [hs, hb]
    · simp only [hs, hb, if_false, ne_eq, not_false_eq_true, true_and,
        List.any_eq_true, List.mem_filter, bne_iff_ne, beq_iff_eq]
      constructor
      · rintro ⟨k, ⟨hk, hne⟩, hdig⟩
        exact ⟨k, hk, hne, hdig⟩
      · rintro ⟨k, hk, hne, hdig⟩
        exact ⟨k, ⟨hk, hne⟩, hdig⟩

/-! ## C2 — circuit breaker DAG -/

/-- C2: the claimed breaker DAG is violated by the code.  On the concrete
stimulus sequence `breakerTrace` (five failures at time 0 with threshold 5,
then a `should_attempt` query at time 61 with timeout 60, then one more
failure) the breaker first opens, then moves to half-open, and the failure
recorded while half-open leaves it in half-open — `record_failure` only
transitions to open from the closed state — whereas the claim requires the
breaker to return to open with `opened_at` reset. -/
theorem C2_half_open_failure_does_not_reopen :
    (applyBreakerOps (mkBreaker 5 60)
        [.failure 0, .failure 0, .failure 0, .failure 0, .failure 0]).state = .opened
    ∧ (applyBreakerOps (mkBreaker 5 60)
        [.failure 0, .failure 0, .failure 0, .failure 0, .failure 0, .query 61]).state
        = .halfOpen
    ∧ (applyBreakerOps (mkBreaker 5 60) breakerTrace).state = .halfOpen
    ∧ (applyBreakerOps (mkBreaker 5 60) breakerTrace).state ≠ .opened
    ∧ (applyBreakerOps (mkBreaker 5 60) breakerTrace).failure_count = 6 := by
  with_unfolding_all decide

/-! ## C9 — token refresh single-flight -/

/-- C9: the token-refresh path has no single-flight protection.  Starting
from a persisted token with `expires_at = now − 10` (both callers observe
`is_token_expired`), the schedule "A begins, then B begins" — legal on the
cooperative event loop because A is suspended on its refresh POST — leaves
*both* refresh requests in flight simultaneously, contradicting the claim
that at most one refresh is in flight at any time. -/
theorem C9_concurrent_refreshes_both_in_flight :
    is_token_expired 1000 c9World.expires_at = true
    ∧ bothRefreshing (beginEnsureValidToken 1000 .b (beginEnsureValidToken 1000 .a c9World))
        = true := by
  with_unfolding_all decide

/-! ## C1 / C10 — exhausted retries and the dead-letter queue -/

/-- If the business logic fails on every attempt index, the retry loop
executes all of them and reports failure. -/
theorem runAttempts_of_all_false (outcome : ℕ → Bool) (l : List ℕ)
    (h : ∀ a ∈ l, outcome a = false) : runAttempts outcome l = (l, false) := by
  induction l with
  | nil => rfl
  | cons a rest ih =>
    have ha : outcome a = false := h a (List.mem_cons_self a rest)
    have hr := ih (fun x hx => h x (List.mem_cons_of_mem a hx))
    simp [runAttempts, ha, hr]

/-- C1 (amended): when every attempt in `[retry_count, max_retries]` fails,
exactly one entry is LPUSHed onto `dead_letter` and `total_failed` rises
by 1, with everything else unchanged.  The pushed entry carries the
envelope's payload unchanged and its metadata extended with
`moved_to_dlq_at` and `worker_id` — but it does *not* preserve the
envelope's `id`, which the rebuilt DLQ dict drops. -/
theorem C1_exhausted_retries_move_to_dlq (P : Type) (outcome : ℕ → Bool)
    (wid : ℕ) (now : ℚ) (e : Envelope P) (st : QueueState P)
    (h : ∀ a ∈ attemptRange e.metadata.retry_count e.metadata.max_retries,
      outcome a = false) :
    process_message P outcome wid now e st =
      { st with
        dead_letter :=
          some { id := none
                 payload := e.payload
                 metadata := { e.metadata with
                   moved_to_dlq_at := some now, worker_id := some wid } }
            :: st.dead_letter
        total_failed := st.total_failed + 1 } := by
  unfold process_message process_with_retry
  rw [runAttempts_of_all_false outcome _ h]
  simp [dlqMessage]

/-- C1 witness: a concrete all-attempts-fail run pushes the rebuilt entry and
bumps `total_failed`. -/
theorem C1_exhausted_retries_move_to_dlq_witness :
    process_message String (fun _ => false) 1 5 c1Envelope (emptyQueueState String) =
      { emptyQueueState String with
        dead_letter :=
          [some { id := none
                  payload := c1Envelope.payload
                  metadata := { c1Envelope.metadata with
                    moved_to_dlq_at := some 5, worker_id := some 1 } }]
        total_failed := 1 } :=
  C1_exhausted_retries_move_to_dlq String (fun _ => false) 1 5 c1Envelope
    (emptyQueueState String) (by decide)

/-- C1 counterexample: the entry LPUSHed to the dead-letter list is *not*
the dequeued envelope with only its metadata extended — the envelope's id
`wh_1_A1` is dropped (`_move_to_dead_letter` rebuilds the dict from
`payload` and `metadata` only), so the claimed shape does not appear. -/
theorem C1_counterexample :
    (process_message String (fun _ => false) 1 5 c1Envelope
        (emptyQueueState String)).dead_letter.length = 1
    ∧ (process_message String (fun _ => false) 1 5 c1Envelope
        (emptyQueueState String)).dead_letter ≠
        [some { c1Envelope with
          metadata := { c1Envelope.metadata with
            moved_to_dlq_at := some 5, worker_id := some 1 } }]
    ∧ c1Envelope.id = some ("wh_1_A1") := by
  with_unfolding_all decide

/-- C10: an envelope dequeued with `retry_count > max_retries` gets an empty
attempt range, so the business logic is never invoked (the outcome of
processing does not depend on it at all) and the envelope goes straight to
the dead-letter queue, counted in `total_failed`. -/
theorem C10_stale_retry_count_straight_to_dlq (P : Type)
    (outcome outcomeB : ℕ → Bool) (wid : ℕ) (now : ℚ) (e : Envelope P)
    (st : QueueState P)
    (h : e.metadata.max_retries < e.metadata.retry_count) :
    attemptRange e.metadata.retry_count e.metadata.max_retries = []
    ∧ process_message P outcome wid now e st = process_message P outcomeB wid now e st
    ∧ process_message P outcome wid now e st =
        { st with dead_letter := some (dlqMessage P wid now e) :: st.dead_letter
                  total_failed := st.total_failed + 1 } := by
  have hr : attemptRange e.metadata.retry_count e.metadata.max_retries = [] := by
    unfold attemptRange
    have h0 : e.metadata.max_retries + 1 - e.metadata.retry_count = 0 := by omega
    rw [h0]
    rfl
  refine ⟨hr, ?_, ?_⟩ <;>
    · unfold process_message process_with_retry
      rw [hr]
      simp [runAttempts]

/-- C10 witness: a concrete envelope with `retry_count = 5 > 3 = max_retries`
is moved to the DLQ without any processing attempt. -/
theorem C10_stale_retry_count_straight_to_dlq_witness :
    attemptRange 5 3 = []
    ∧ process_message String (fun _ => true) 2 7 c10Envelope (emptyQueueState String) =
        { emptyQueueState String with
          dead_letter := [some (dlqMessage String 2 7 c10Envelope)]
          total_failed := 1 } :=
  ⟨(C10_stale_retry_count_straight_to_dlq String (fun _ => true) (fun _ => false)
      2 7 c10Envelope (emptyQueueState String) (by decide)).1,
   (C10_stale_retry_count_straight_to_dlq String (fun _ => true) (fun _ => false)
      2 7 c10Envelope (emptyQueueState String) (by decide)).2.2⟩

/-! ## C7 — DLQ replay -/

/-- Closed form of the replay loop: in one pass it prepends the reset
decodable entries (in push order) to the main list and counts decodable and
undecodable entries. -/
theorem retryDlqLoop_spec (P : Type) (now : ℚ) (l : List (Option (Envelope P)))
    (main : List (Envelope P)) (r f : ℕ) :
    retryDlqLoop P now l main r f =
      ((l.filterMap (fun o => o.map (resetForRetry P now))).reverse ++ main,
       r + l.countP (fun o => o.isSome),
       f + l.countP (fun o => o.isNone)) := by
  induction l generalizing main r f with
  | nil => simp [retryDlqLoop]
  | cons o rest ih =>
    cases o with
    | some e =>
      rw [retryDlqLoop, ih]
      refine Prod.ext ?_ (Prod.ext ?_ ?_) <;>
        simp [List.countP_cons, List.filterMap_cons] <;> omega
    | none =>
      rw [retryDlqLoop, ih]
      refine Prod.ext ?_ (Prod.ext ?_ ?_) <;>
        simp [List.countP_cons, List.filterMap_cons] <;> omega

/-- C7: `retry_dlq_messages` empties the dead-letter list, LPUSHes every
decodable entry onto the main queue with `retry_count = 0`,
`enqueued_at = now`, `moved_to_dlq_at` and `worker_id` removed and every
other field (`id`, `payload`, `max_retries`) unchanged, leaves the stats
counters alone, and returns `retried` = number of decodable entries and
`failed` = number of undecodable ones. -/
theorem C7_retry_dlq_messages_spec (P : Type) (now : ℚ) (st : QueueState P) :
    (retry_dlq_messages P now st).1.dead_letter = []
    ∧ (retry_dlq_messages P now st).1.main =
        st.dead_letter.filterMap (fun o => o.map (resetForRetry P now)) ++ st.main
    ∧ (retry_dlq_messages P now st).2.1 = st.dead_letter.countP (fun o => o.isSome)
    ∧ (retry_dlq_messages P now st).2.2 = st.dead_letter.countP (fun o => o.isNone)
    ∧ (retry_dlq_messages P now st).1.total_enqueued = st.total_enqueued
    ∧ (retry_dlq_messages P now st).1.total_processed = st.total_processed
    ∧ (retry_dlq_messages P now st).1.total_failed = st.total_failed
    ∧ ∀ e : Envelope P,
        (resetForRetry P now e).id = e.id
        ∧ (resetForRetry P now e).payload = e.payload
        ∧ (resetForRetry P now e).metadata.max_retries = e.metadata.max_retries
        ∧ (resetForRetry P now e).metadata.retry_count = 0
        ∧ (resetForRetry P now e).metadata.enqueued_at = now
        ∧ (resetForRetry P now e).metadata.moved_to_dlq_at = none
        ∧ (resetForRetry P now e).metadata.worker_id = none := by
  unfold retry_dlq_messages
  rw [retryDlqLoop_spec]
  refine ⟨rfl, ?_, ?_, ?_, rfl, rfl, rfl, fun e => ⟨rfl, rfl, rfl, rfl, rfl, rfl, rfl⟩⟩
  · simp
  · simp [List.countP_reverse]
  · simp [List.countP_reverse]

/-! ## C6 — sync lock failure -/

/-- C6 (amended): when the single-sync lock cannot be acquired,
`sync_orders_in_range` returns the skipped `SyncResult`
(`success = false`, error `"Sync already in progress"`, zero counts) to its
caller, fetches no orders and performs no upserts (the outcome is
independent of the API and repository collaborators), and leaves the whole
reconciliation state — including the sync history and
`last_sync_timestamp` — unchanged; the skipped result is *not* appended to
the bounded sync history. -/
theorem C6_lock_failure_skips_without_recording (env envB : SyncEnv)
    (t0 t1 : ℚ) (tfrom tto : ℤ) (sync_type : String) (st : RecoState)
    (h : st.syncLock = true) :
    (sync_orders_in_range env t0 t1 tfrom tto sync_type st).1 = st
    ∧ (sync_orders_in_range env t0 t1 tfrom tto sync_type st).2 =
        { sync_type := sync_type, started_at := t0, completed_at := t1
          time_from := tfrom, time_to := tto
          orders_fetched := 0, orders_processed := 0, orders_skipped := 0
          errors := ["Sync already in progress"], success := false }
    ∧ sync_orders_in_range env t0 t1 tfrom tto sync_type st =
        sync_orders_in_range envB t0 t1 tfrom tto sync_type st := by
  unfold sync_orders_in_range
  rw [h]
  exact ⟨rfl, rfl, rfl⟩

/-- C6 witness: a concrete locked state is returned untouched together with
the skipped result, for two entirely different collaborator environments. -/
theorem C6_lock_failure_skips_without_recording_witness :
    (sync_orders_in_range c6Env 1 2 0 10 ("manual") c6St).1 = c6St
    ∧ sync_orders_in_range c6Env 1 2 0 10 ("manual") c6St =
        sync_orders_in_range c6EnvB 1 2 0 10 ("manual") c6St :=
  ⟨(C6_lock_failure_skips_without_recording c6Env c6EnvB 1 2 0 10 ("manual") c6St rfl).1,
   (C6_lock_failure_skips_without_recording c6Env c6EnvB 1 2 0 10 ("manual") c6St rfl).2.2⟩

/-- C6 counterexample: with the lock already held the call leaves the sync
history empty — the skipped result it returns is recorded nowhere — whereas
the claim requires it to be appended to the history like any other
`SyncResult`. -/
theorem C6_counterexample :
    (sync_orders_in_range c6Env 1 2 0 10 ("manual") c6St).1.history = []
    ∧ (sync_orders_in_range c6Env 1 2 0 10 ("manual") c6St).2.errors =
        ["Sync already in progress"]
    ∧ (sync_orders_in_range c6Env 1 2 0 10 ("manual") c6St).2 ∉
        (sync_orders_in_range c6Env 1 2 0 10 ("manual") c6St).1.history := by
  refine ⟨rfl, rfl, ?_⟩
  intro hmem
  simp [sync_orders_in_range, c6St] at hmem

/-! ## C3 — per-item net income -/

/-- C3 (amended): per-item net income is 0 when the settlement is absent,
when `escrow_amount` is 0, when the settlement merchandise total is 0 (in
particular when there are no settlement rows), or when no settlement row
matches the item under the code's guarded test — a row matches only through
a *non-empty* `model_sku` equal to the item's `model_sku` or a *non-empty*
`item_sku` equal to the item's `item_sku`; otherwise it equals
`round(escrow_amount * (selling_price of the first matching row / total), 2)`. -/
theorem C3_net_income_characterization (it : OrderItemIn)
    (escrow : Option EscrowData) :
    (escrow = none → calculate_item_net_income it escrow = 0)
    ∧ (∀ e, escrow = some e →
        (e.escrow_amount = 0 ∨ totalMerchValue e = 0 ∨
          e.items.find? (fun ei => escrowRowMatches ei it) = none) →
        calculate_item_net_income it escrow = 0)
    ∧ (∀ e m, escrow = some e → e.escrow_amount ≠ 0 → totalMerchValue e ≠ 0 →
        e.items.find? (fun ei => escrowRowMatches ei it) = some m →
        calculate_item_net_income it escrow =
          roundTo2 (e.escrow_amount * (m.selling_price / totalMerchValue e))) := by
  refine ⟨?_, ?_, ?_⟩
  · intro h
    rw [h]
    rfl
  · rintro e rfl hd
    by_cases h1 : e.escrow_amount = 0
    · simp [calculate_item_net_income, h1]
    · by_cases h2 : e.items.isEmpty
      · simp [calculate_item_net_income, h1, h2]
      · by_cases h3 : totalMerchValue e = 0
        · simp [calculate_item_net_income, h1, h2, h3]
        · rcases hd with hd | hd | hd
          · exact absurd hd h1
          · exact absurd hd h3
          · simp [calculate_item_net_income, h1, h2, h3, hd]
  · rintro e m rfl h1 h3 hf
    have h2 : e.items.isEmpty = false := by
      cases hi : e.items with
      | nil => rw [hi] at hf; simp [List.find?] at hf
      | cons a l => simp [hi]
    simp [calculate_item_net_income, h1, h2, h3, hf]

/-- C3 witness: on the fully-matching settlement of scenario E1, the item
with `model_sku = "X"` earns the rounded 60-share of the 100 escrow. -/
theorem C3_net_income_characterization_witness :
    calculate_item_net_income c4ItemX (some c4Escrow) =
      roundTo2 (c4Escrow.escrow_amount *
        ((60 : ℚ) / totalMerchValue c4Escrow)) :=
  (C3_net_income_characterization c4ItemX (some c4Escrow)).2.2 c4Escrow
    { model_sku := "X", item_sku := "", selling_price := 60 }
    rfl (by with_unfolding_all decide) (by with_unfolding_all decide)
    (by with_unfolding_all decide)

/-- C3 counterexample: an item whose `model_sku` is empty and a settlement
row whose `model_sku` is also empty satisfy the claim's plain-equality match
(`"" == ""`), so the claim assigns the item the row's pro-rata share
(60.0); the code's truthiness guard rejects the match and returns 0.0. -/
theorem C3_counterexample :
    calculate_item_net_income c3Item (some c3Escrow) = 0
    ∧ netIncomeAsSpecified c3Item (some c3Escrow) = 60
    ∧ (∃ ei ∈ c3Escrow.items, ei.model_sku = c3Item.model_sku)
    ∧ c3Escrow.escrow_amount ≠ 0
    ∧ totalMerchValue c3Escrow ≠ 0
    ∧ (0 : ℚ) ≠ 60 := by
  with_unfolding_all decide

/-! ## C4 — pro-rata conservation -/

/-- Rounding to two decimals moves a value by at most half a cent. -/
theorem roundTo2_abs_sub_le (x : ℚ) : |roundTo2 x - x| ≤ 1 / 200 := by
  have h := abs_sub_round ((100 : ℚ) * x)
  have hx : roundTo2 x - x = -((100 * x - (round ((100 : ℚ) * x) : ℤ)) / 100) := by
    unfold roundTo2
    ring
  rw [hx, abs_neg, abs_div]
  rw [show |(100 : ℚ)| = 100 by norm_num]
  linarith [h]

/-- Summing two pointwise-`c`-close functions over a list keeps the sums
within `length * c`. -/
theorem abs_list_sum_sub_le {α : Type} (l : List α) (f g : α → ℚ) (c : ℚ)
    (h : ∀ x ∈ l, |f x - g x| ≤ c) :
    |(l.map f).sum - (l.map g).sum| ≤ l.length * c := by
  induction l with
  | nil => simp
  | cons a rest ih =>
    have h1 : |f a - g a| ≤ c := h a (List.mem_cons_self a rest)
    have h2 := ih (fun x hx => h x (List.mem_cons_of_mem a hx))
    have h3 : |(f a + ((rest.map f).sum)) - (g a + ((rest.map g).sum))|
        ≤ |f a - g a| + |(rest.map f).sum - (rest.map g).sum| := by
      have := abs_add (f a - g a) ((rest.map f).sum - (rest.map g).sum)
      calc |(f a + ((rest.map f).sum)) - (g a + ((rest.map g).sum))|
          = |(f a - g a) + ((rest.map f).sum - (rest.map g).sum)| := by ring_nf
        _ ≤ _ := this
    simp only [List.map_cons, List.sum_cons, List.length_cons]
    push_cast
    calc |(f a + ((rest.map f).sum)) - (g a + ((rest.map g).sum))|
        ≤ |f a - g a| + |(rest.map f).sum - (rest.map g).sum| := h3
      _ ≤ c + rest.length * c := add_le_add h1 h2
      _ = (rest.length + 1) * c := by ring

/-- A `filterMap` by an everywhere-`some` function keeps the length. -/
theorem filterMap_length_of_all_isSome {α β : Type} (f : α → Option β) :
    ∀ l : List α, (∀ x ∈ l, (f x).isSome) → (l.filterMap f).length = l.length := by
  intro l
  induction l with
  | nil => intro _; rfl
  | cons a rest ih =>
    intro h
    obtain ⟨b, hb⟩ := Option.isSome_iff_exists.mp (h a (List.mem_cons_self a rest))
    rw [List.filterMap_cons_some hb, List.length_cons, List.length_cons,
      ih (fun x hx => h x (List.mem_cons_of_mem a hx))]

/-- When the settlement is usable and every order item matches a row, the
per-item net incomes are exactly the rounded pro-rata shares of the matched
rows. -/
theorem net_income_map_eq_filterMap (e : EscrowData)
    (hA : e.escrow_amount ≠ 0) (hne : e.items.isEmpty = false)
    (hT : totalMerchValue e ≠ 0) :
    ∀ l : List OrderItemIn,
      (∀ it ∈ l, (e.items.find? (fun ei => escrowRowMatches ei it)).isSome) →
      l.map (fun it => calculate_item_net_income it (some e)) =
        (l.filterMap (fun it => e.items.find? (fun ei => escrowRowMatches ei it))).map
          (fun m => roundTo2 (e.escrow_amount * (m.selling_price / totalMerchValue e))) := by
  intro l
  induction l with
  | nil => intro _; rfl
  | cons it rest ih =>
    intro h
    obtain ⟨m, hm⟩ :=
      Option.isSome_iff_exists.mp (h it (List.mem_cons_self it rest))
    have h2 := ih (fun x hx => h x (List.mem_cons_of_mem it hx))
    simp only [List.map_cons, List.filterMap_cons, hm]
    rw [h2]
    congr 1
    simp [calculate_item_net_income, hA, hne, hT, hm]

/-- The exact (unrounded) pro-rata shares of all settlement rows sum to the
escrow amount. -/
theorem escrow_pro_rata_sum (e : EscrowData) (hT : totalMerchValue e ≠ 0) :
    (e.items.map (fun m => e.escrow_amount * (m.selling_price / totalMerchValue e))).sum
      = e.escrow_amount := by
  have h1 : (fun m : EscrowItem => e.escrow_amount * (m.selling_price / totalMerchValue e))
      = fun m : EscrowItem => (e.escrow_amount / totalMerchValue e) * m.selling_price := by
    funext m
    ring
  rw [h1, List.sum_map_mul_left]
  rw [show (e.items.map fun m => m.selling_price) = e.items.map EscrowItem.selling_price from rfl]
  rw [show (e.items.map EscrowItem.selling_price).sum = totalMerchValue e from rfl]
  field_simp

/-- `sumTotalSale` really is the sum of the per-item net incomes. -/
theorem sumTotalSale_eq_map_sum (o : OrderDetail) (escrow : Option EscrowData) :
    sumTotalSale o escrow =
      (o.item_list.map (fun it => calculate_item_net_income it escrow)).sum := by
  unfold sumTotalSale parse_order_items
  rw [List.map_map]
  rfl

/-- C4 (amended): pro-rata conservation holds when the matching covers the
settlement exactly — `escrow_amount > 0`, the merchandise total is non-zero,
every order item matches a settlement row, and the matched rows are a
permutation of the settlement rows (each row claimed exactly once).  Then
the summed `total_sale` differs from `escrow_amount` by at most
`n × 0.01` with `n` the number of order items.  (Without exact coverage the
bound fails: see the counterexample.) -/
theorem C4_pro_rata_conservation (o : OrderDetail) (e : EscrowData)
    (hA : 0 < e.escrow_amount)
    (hT : totalMerchValue e ≠ 0)
    (hall : ∀ it ∈ o.item_list,
      (e.items.find? (fun ei => escrowRowMatches ei it)).isSome)
    (hcover : (o.item_list.filterMap
        (fun it => e.items.find? (fun ei => escrowRowMatches ei it))).Perm e.items) :
    |sumTotalSale o (some e) - e.escrow_amount|
      ≤ (o.item_list.length : ℚ) * (1 / 100) := by
  have hA' : e.escrow_amount ≠ 0 := ne_of_gt hA
  have hne : e.items.isEmpty = false := by
    cases hi : e.items with
    | nil =>
      exfalso
      apply hT
      simp [totalMerchValue, hi]
    | cons a l => simp [hi]
  have hmap := net_income_map_eq_filterMap e hA' hne hT o.item_list hall
  have hperm := (hcover.map
    (fun m => roundTo2 (e.escrow_amount * (m.selling_price / totalMerchValue e)))).sum_eq
  have hbound := abs_list_sum_sub_le e.items
    (fun m => roundTo2 (e.escrow_amount * (m.selling_price / totalMerchValue e)))
    (fun m => e.escrow_amount * (m.selling_price / totalMerchValue e)) (1 / 200)
    (fun m _ => roundTo2_abs_sub_le _)
  rw [escrow_pro_rata_sum e hT] at hbound
  have hlen : (e.items.length : ℚ) = (o.item_list.length : ℚ) := by
    rw [← hcover.length_eq, filterMap_length_of_all_isSome _ o.item_list hall]
  have hq : sumTotalSale o (some e) =
      (e.items.map
        (fun m => roundTo2 (e.escrow_amount * (m.selling_price / totalMerchValue e)))).sum := by
    rw [sumTotalSale_eq_map_sum, hmap, hperm]
  rw [hq]
  have hnn : (0 : ℚ) ≤ (o.item_list.length : ℚ) := Nat.cast_nonneg _
  calc |(e.items.map
        (fun m => roundTo2 (e.escrow_amount * (m.selling_price / totalMerchValue e)))).sum
        - e.escrow_amount|
      ≤ e.items.length * (1 / 200) := hbound
    _ = (o.item_list.length : ℚ) * (1 / 200) := by rw [hlen]
    _ ≤ (o.item_list.length : ℚ) * (1 / 100) := by
        apply mul_le_mul_of_nonneg_left _ hnn
        norm_num

/-- C4 witness: scenario E1 — two items matching the 60/40 settlement rows
of a 100 escrow sum to exactly 100, within the `2 × 0.01` bound. -/
theorem C4_pro_rata_conservation_witness :
    |sumTotalSale c4Order (some c4Escrow) - c4Escrow.escrow_amount|
      ≤ (c4Order.item_list.length : ℚ) * (1 / 100) :=
  C4_pro_rata_conservation c4Order c4Escrow
    (by with_unfolding_all decide) (by with_unfolding_all decide)
    (by with_unfolding_all decide) (by with_unfolding_all decide)

/-- C4 counterexample: the claim as stated only asks that *at least one*
item match.  With a single order item matching the 60-row of the 100 escrow
(settlement also carries an unmatched 40-row), the item sum is 60.0 and
`|60 − 100| = 40` far exceeds the claimed `1 × 0.01` bound. -/
theorem C4_counterexample :
    (0 : ℚ) < c4Escrow.escrow_amount
    ∧ (c4OrderSingle.item_list.filterMap
        (fun it => c4Escrow.items.find? (fun ei => escrowRowMatches ei it))).length = 1
    ∧ sumTotalSale c4OrderSingle (some c4Escrow) = 60
    ∧ ¬ (|sumTotalSale c4OrderSingle (some c4Escrow) - c4Escrow.escrow_amount|
          ≤ (1 : ℚ) * (1 / 100)) := by
  with_unfolding_all decide

/-! ## C8 — message chunking -/

/-- Stripping never lengthens a string. -/
theorem pyStrip_length_le (s : PyStr) : (pyStrip s).length ≤ s.length := by
  unfold pyStrip
  calc ((s.dropWhile Char.isWhitespace).reverse.dropWhile
          Char.isWhitespace).reverse.length
      = ((s.dropWhile Char.isWhitespace).reverse.dropWhile
          Char.isWhitespace).length := List.length_reverse _
    _ ≤ (s.dropWhile Char.isWhitespace).reverse.length :=
        (List.dropWhile_sublist _).length_le
    _ = (s.dropWhile Char.isWhitespace).length := List.length_reverse _
    _ ≤ s.length := (List.dropWhile_sublist _).length_le

/-- Invariant of the chunk loop: if every remaining line fits in a chunk
(`length + 1 ≤ maxLen`), the running chunk is within bound and all emitted
chunks are within bound, then every chunk the loop produces is within
bound. -/
theorem chunkLoop_length_le (maxLen : ℕ) :
    ∀ (lines : List PyStr) (current : PyStr) (chunks : List PyStr),
      (∀ l ∈ lines, l.length + 1 ≤ maxLen) →
      current.length ≤ maxLen →
      (∀ c ∈ chunks, c.length ≤ maxLen) →
      ∀ c ∈ chunkLoop maxLen lines current chunks, c.length ≤ maxLen := by
  intro lines
  induction lines with
  | nil =>
    intro current chunks _ hcur hch c hc
    simp only [chunkLoop] at hc
    by_cases he : current.isEmpty
    · rw [if_pos he] at hc
      exact hch c hc
    · rw [if_neg he] at hc
      rcases List.mem_append.mp hc with h | h
      · exact hch c h
      · have hce : c = pyStrip current := by simpa using h
        subst hce
        exact le_trans (pyStrip_length_le current) hcur
  | cons line rest ih =>
    intro current chunks hl hcur hch c hc
    have hline : line.length + 1 ≤ maxLen := hl line (List.mem_cons_self line rest)
    have hrest : ∀ l ∈ rest, l.length + 1 ≤ maxLen :=
      fun x hx => hl x (List.mem_cons_of_mem line hx)
    simp only [chunkLoop] at hc
    by_cases hfit : current.length + line.length + 1 ≤ maxLen
    · rw [if_pos hfit] at hc
      refine ih _ _ hrest ?_ hch c hc
      simp only [List.length_append, List.length_cons, List.length_nil]
      omega
    · rw [if_neg hfit] at hc
      have hch2 : ∀ x ∈ (if current.isEmpty then chunks
          else chunks ++ [pyStrip current]), x.length ≤ maxLen := by
        intro x hx
        by_cases he : current.isEmpty
        · rw [if_pos he] at hx
          exact hch x hx
        · rw [if_neg he] at hx
          rcases List.mem_append.mp hx with h | h
          · exact hch x h
          · have hxe : x = pyStrip current := by simpa using h
            subst hxe
            exact le_trans (pyStrip_length_le current) hcur
      refine ih _ _ hrest ?_ hch2 c hc
      simp only [List.length_append, List.length_cons, List.length_nil]
      omega

/-- C8 (amended): a message of at most 4000 characters is the single chunk
`[message]`; a longer message is split at line boundaries into chunks that
are all of length at most 4000 *provided every line of the message has at
most 3999 characters* (a single line longer than that becomes a chunk
exceeding the limit — see the counterexample); and the direct send reports
success only if the send of every chunk succeeded. -/
theorem C8_chunking_spec (message : PyStr) (sendOk : PyStr → Bool) :
    (message.length ≤ 4000 → split_long_message message 4000 = [message])
    ∧ ((∀ line ∈ splitOnNewline message, line.length + 1 ≤ 4000) →
        ∀ c ∈ split_long_message message 4000, c.length ≤ 4000)
    ∧ (send_direct true sendOk message = true →
        ∀ c ∈ split_long_message message 4000, sendOk c = true) := by
  refine ⟨?_, ?_, ?_⟩
  · intro h
    simp [split_long_message, h]
  · intro hl c hc
    unfold split_long_message at hc
    by_cases hle : message.length ≤ 4000
    · rw [if_pos hle] at hc
      have hcm : c = message := by simpa using hc
      subst hcm
      exact hle
    · rw [if_neg hle] at hc
      by_cases he : (chunkLoop 4000 (splitOnNewline message) [] []).isEmpty
      · rw [if_pos he] at hc
        have hcm : c = message.take 4000 := by simpa using hc
        subst hcm
        simp only [List.length_take]
        omega
      · rw [if_neg he] at hc
        exact chunkLoop_length_le 4000 (splitOnNewline message) [] [] hl
          (by simp) (by simp) c hc
  · intro hsend c hc
    simp only [send_direct, if_true, List.all_eq_true] at hsend
    exact hsend c hc

/-- C8 witness: a two-character message is sent as the single chunk equal to
itself, within the length bound. -/
theorem C8_chunking_spec_witness :
    split_long_message c8Small 4000 = [c8Small]
    ∧ (∀ c ∈ split_long_message c8Small 4000, c.length ≤ 4000) :=
  ⟨(C8_chunking_spec c8Small (fun _ => true)).1 (by decide),
   (C8_chunking_spec c8Small (fun _ => true)).2.1 (by decide)⟩

/-- `dropWhile` does nothing on a list none of whose elements satisfy the
predicate. -/
theorem dropWhile_eq_self_of_all {α : Type} {p : α → Bool} (l : List α)
    (h : ∀ c ∈ l, p c = false) : l.dropWhile p = l := by
  cases l with
  | nil => rfl
  | cons a t => simp [List.dropWhile_cons, h a (List.mem_cons_self a t)]

/-- Splitting a newline-free string yields that single line. -/
theorem splitOnNewline_eq_single (s : PyStr) (h : ∀ c ∈ s, c ≠ '\n') :
    splitOnNewline s = [s] := by
  induction s with
  | nil => rfl
  | cons c rest ih =>
    have hc : c ≠ '\n' := h c (List.mem_cons_self c rest)
    have hr := ih (fun x hx => h x (List.mem_cons_of_mem c hx))
    simp [splitOnNewline, hr, hc]

/-- Stripping a whitespace-free string with one newline appended recovers
the string. -/
theorem pyStrip_append_newline (s : PyStr)
    (h : ∀ c ∈ s, c.isWhitespace = false) : pyStrip (s ++ ['\n']) = s := by
  cases s with
  | nil => rfl
  | cons a t =>
    have ha := h a (List.mem_cons_self a t)
    unfold pyStrip
    rw [List.cons_append, List.dropWhile_cons]
    simp only [ha, Bool.false_eq_true, if_false]
    rw [show (a :: (t ++ ['\n'])) = (a :: t) ++ ['\n'] from rfl]
    rw [List.reverse_append]
    simp only [List.reverse_cons, List.reverse_nil, List.nil_append,
      List.singleton_append]
    rw [List.dropWhile_cons]
    simp only [show Char.isWhitespace '\n' = true from rfl, if_true]
    rw [dropWhile_eq_self_of_all (t.reverse ++ [a]) (fun c hc => by
      rcases List.mem_append.mp hc with h1 | h1
      · exact h c (List.mem_cons_of_mem a (List.mem_reverse.mp h1))
      · have hca : c = a := by simpa using h1
        subst hca
        exact h c (List.mem_cons_self c t))]
    simp

/-- A single whitespace-free line longer than the limit is returned as one
(overlong) chunk. -/
theorem single_line_overflow (s : PyStr) (maxLen : ℕ)
    (hws : ∀ c ∈ s, c.isWhitespace = false) (hlen : maxLen < s.length) :
    split_long_message s maxLen = [s] := by
  have hnl : ∀ c ∈ s, c ≠ '\n' := by
    intro c hc he
    have hw := hws c hc
    rw [he] at hw
    exact absurd hw (by decide)
  have hsplit := splitOnNewline_eq_single s hnl
  have hloop : chunkLoop maxLen [s] [] [] = [pyStrip (s ++ ['\n'])] := by
    rw [chunkLoop]
    rw [if_neg (by simp; omega)]
    simp only [List.isEmpty_nil, if_true]
    rw [chunkLoop]
    simp [show (s ++ ['\n']).isEmpty = false by simp]
  unfold split_long_message
  rw [if_neg (by omega), hsplit, hloop, pyStrip_append_newline s hws]
  simp

/-- C8 counterexample: a rendered message of 4001 identical non-whitespace
characters contains no newline, so `_split_long_message` returns it as a
single chunk of 4001 characters — the claimed `≤ 4000` chunk-length bound
fails. -/
theorem C8_counterexample :
    4000 < c8Message.length
    ∧ ¬ (∀ c ∈ split_long_message c8Message 4000, c.length ≤ 4000) := by
  have hws : ∀ c ∈ c8Message, c.isWhitespace = false := by
    intro c hc
    have hca := List.eq_of_mem_replicate hc
    subst hca
    decide
  have hlen : c8Message.length = 4001 := by
    unfold c8Message
    exact List.length_replicate 4001 'a'
  have hsplit := single_line_overflow c8Message 4000 hws (by omega)
  refine ⟨by omega, fun hall => ?_⟩
  have hmem : c8Message ∈ split_long_message c8Message 4000 := by
    rw [hsplit]
    exact List.mem_singleton.mpr rfl
  have := hall c8Message hmem
  omega

end ShopeeVerification
